import Mathlib

/-!
Verification development for the wallet-generation core of the repository
(`src/cardano_spo_cli/tools/wallet.py`, class `CardanoWalletGenerator`).

The Python module shells out to the external tools `cardano-address` /
`cardano-cli` for all cryptographic primitives.  The embedding models each
`subprocess.run` invocation as the consumption of one element of a reply
trace (`OracleReply`), records the issued command line in a log, and models
the filesystem side effects that matter to the claims (the per-ticker shared
mnemonic file and the wallet files written by the save routines) as explicit
state.  The pure helpers of the module — the `bech32` library it imports,
`validate_address`, `cbor_hex_to_bech32`, `generate_proper_cbor_hex`,
`generate_proper_credential_hash` and the network-tag table — are embedded
directly as Lean functions.
-/

namespace CSPO

/-! ### Character-list based string helpers

The embedding avoids the core position-based `String` primitives
(`String.trim`, `String.map`, `String.startsWith`, `String.take`, ...)
because their well-founded recursion does not reduce inside the kernel;
these list-based equivalents compute the same strings. -/

/-- The whitespace stripped by Python `str.strip()` (ASCII portion). -/
def isSpaceChar (c : Char) : Bool :=
  c == ' ' || c == '\t' || c == '\n' || c == '\r' || c == '\x0b' || c == '\x0c'

/-- Python `str.strip()`. -/
def pyStrip (s : String) : String :=
  String.mk (((s.data.dropWhile isSpaceChar).reverse.dropWhile isSpaceChar).reverse)

/-- Python slicing `s[:n]`. -/
def strTake (s : String) (n : Nat) : String := String.mk (s.data.take n)

/-- Python slicing `s[n:]`. -/
def strDrop (s : String) (n : Nat) : String := String.mk (s.data.drop n)

/-- Python `s.startswith(pre)`. -/
def startsWithStr (s pre : String) : Bool := s.data.take pre.data.length == pre.data

/-- Python `s.lower()` (ASCII portion; all inputs here are ASCII). -/
def lowerStr (s : String) : String := String.mk (s.data.map Char.toLower)

/-- Python `s.upper()` (ASCII portion). -/
def upperStr (s : String) : String := String.mk (s.data.map Char.toUpper)

/-! ### Bytes and hex (Python `bytes.fromhex` / `bytes.hex`) -/

/-- Value of one hex digit, as accepted by Python `bytes.fromhex` (both cases). -/
def hexVal? (c : Char) : Option Nat :=
  if '0' ≤ c ∧ c ≤ '9' then some (c.toNat - '0'.toNat)
  else if 'a' ≤ c ∧ c ≤ 'f' then some (c.toNat - 'a'.toNat + 10)
  else if 'A' ≤ c ∧ c ≤ 'F' then some (c.toNat - 'A'.toNat + 10)
  else none

/-- Decode a list of hex characters two at a time into bytes.  (Python
`bytes.fromhex` additionally skips ASCII spaces between byte pairs; no input
in this development contains spaces, so that tolerance is not modelled.) -/
def hexPairs? : List Char → Option (List Nat)
  | [] => some []
  | [_] => none
  | c1 :: c2 :: rest => do
      let hi ← hexVal? c1
      let lo ← hexVal? c2
      let r ← hexPairs? rest
      pure ((16 * hi + lo) :: r)

/-- Python `bytes.fromhex`. -/
def hexDecode? (s : String) : Option (List Nat) := hexPairs? s.data

/-- Lower-case hex digit for a value below 16. -/
def hexDigit (n : Nat) : Char :=
  if n < 10 then Char.ofNat ('0'.toNat + n) else Char.ofNat ('a'.toNat + n - 10)

/-- Python `bytes.hex()`: two lower-case hex characters per byte. -/
def hexEncode (bs : List Nat) : String :=
  String.mk (bs.flatMap fun b => [hexDigit (b / 16 % 16), hexDigit (b % 16)])

theorem hexEncode_length (bs : List Nat) : (hexEncode bs).length = 2 * bs.length := by
  induction bs with
  | nil => rfl
  | cons b t ih =>
    simp only [hexEncode, String.length, List.flatMap_cons] at *
    simp [ih]
    omega

/-- Python `f"{n:02x}"` for `n < 256`. -/
def hex2 (n : Nat) : String := String.mk [hexDigit (n / 16 % 16), hexDigit (n % 16)]

/-! ### SHA-256 (the `hashlib.sha256` fallback used by
`generate_proper_credential_hash`), over byte lists, words as `Nat` mod 2^32. -/

def w32 (n : Nat) : Nat := n % 4294967296

def rotr32 (n x : Nat) : Nat := w32 (x / 2 ^ n + x % 2 ^ n * 2 ^ (32 - n))

def shr32 (n x : Nat) : Nat := x / 2 ^ n

def xor3 (a b c : Nat) : Nat := Nat.xor (Nat.xor a b) c

def bigSigma0 (x : Nat) : Nat := xor3 (rotr32 2 x) (rotr32 13 x) (rotr32 22 x)
def bigSigma1 (x : Nat) : Nat := xor3 (rotr32 6 x) (rotr32 11 x) (rotr32 25 x)
def smallSigma0 (x : Nat) : Nat := xor3 (rotr32 7 x) (rotr32 18 x) (shr32 3 x)
def smallSigma1 (x : Nat) : Nat := xor3 (rotr32 17 x) (rotr32 19 x) (shr32 10 x)

def chFn (x y z : Nat) : Nat :=
  Nat.xor (Nat.land x y) (Nat.land (Nat.xor x 4294967295) z)

def majFn (x y z : Nat) : Nat :=
  xor3 (Nat.land x y) (Nat.land x z) (Nat.land y z)

def shaK : List Nat :=
  [1116352408, 1899447441, 3049323471, 3921009573, 961987163,
   1508970993, 2453635748, 2870763221, 3624381080, 310598401,
   607225278, 1426881987, 1925078388, 2162078206, 2614888103,
   3248222580, 3835390401, 4022224774, 264347078, 604807628,
   770255983, 1249150122, 1555081692, 1996064986, 2554220882,
   2821834349, 2952996808, 3210313671, 3336571891, 3584528711,
   113926993, 338241895, 666307205, 773529912, 1294757372,
   1396182291, 1695183700, 1986661051, 2177026350, 2456956037,
   2730485921, 2820302411, 3259730800, 3345764771, 3516065817,
   3600352804, 4094571909, 275423344, 430227734, 506948616,
   659060556, 883997877, 958139571, 1322822218, 1537002063,
   1747873779, 1955562222, 2024104815, 2227730452, 2361852424,
   2428436474, 2756734187, 3204031479, 3329325298]

structure H8 where
  a : Nat
  b : Nat
  c : Nat
  d : Nat
  e : Nat
  f : Nat
  g : Nat
  h : Nat

def initH : H8 :=
  ⟨1779033703, 3144134277, 1013904242, 2773480762,
   1359893119, 2600822924, 528734635, 1541459225⟩

/-- Big-endian 32-bit words from bytes, four at a time. -/
def toWords : List Nat → List Nat
  | b0 :: b1 :: b2 :: b3 :: rest =>
      (((b0 * 256 + b1) * 256 + b2) * 256 + b3) :: toWords rest
  | _ => []

/-- Extend the 16 message words to 64 schedule words. -/
def shaSchedule (ws : List Nat) : List Nat :=
  (List.range 48).foldl
    (fun acc _ =>
      let n := acc.length
      acc ++ [w32 (smallSigma1 (acc.getD (n - 2) 0) + acc.getD (n - 7) 0 +
                   smallSigma0 (acc.getD (n - 15) 0) + acc.getD (n - 16) 0)])
    ws

def shaRound (st : H8) (kw : Nat × Nat) : H8 :=
  let t1 := w32 (st.h + bigSigma1 st.e + chFn st.e st.f st.g + kw.1 + kw.2)
  let t2 := w32 (bigSigma0 st.a + majFn st.a st.b st.c)
  ⟨w32 (t1 + t2), st.a, st.b, st.c, w32 (st.d + t1), st.e, st.f, st.g⟩

def compressBlock (st : H8) (block : List Nat) : H8 :=
  let ws := shaSchedule (toWords block)
  let fin := (shaK.zip ws).foldl shaRound st
  ⟨w32 (st.a + fin.a), w32 (st.b + fin.b), w32 (st.c + fin.c), w32 (st.d + fin.d),
   w32 (st.e + fin.e), w32 (st.f + fin.f), w32 (st.g + fin.g), w32 (st.h + fin.h)⟩

/-- Big-endian length field (8 bytes) of the bit length. -/
def lenBytes (n : Nat) : List Nat :=
  [n / 2 ^ 56 % 256, n / 2 ^ 48 % 256, n / 2 ^ 40 % 256, n / 2 ^ 32 % 256,
   n / 2 ^ 24 % 256, n / 2 ^ 16 % 256, n / 2 ^ 8 % 256, n % 256]

def sha256pad (msg : List Nat) : List Nat :=
  msg ++ [128] ++ List.replicate ((120 - (msg.length + 1) % 64) % 64) 0 ++
    lenBytes (8 * msg.length)

def chunks64 (l : List Nat) : List (List Nat) :=
  if h : l = [] then [] else l.take 64 :: chunks64 (l.drop 64)
termination_by l.length
decreasing_by
  simp only [List.length_drop]
  have : l.length ≠ 0 := fun hl => h (List.length_eq_zero.mp hl)
  omega

def wordBytes (n : Nat) : List Nat :=
  [n / 2 ^ 24 % 256, n / 2 ^ 16 % 256, n / 2 ^ 8 % 256, n % 256]

def sha256 (msg : List Nat) : List Nat :=
  let fin := (chunks64 (sha256pad msg)).foldl compressBlock initH
  wordBytes fin.a ++ wordBytes fin.b ++ wordBytes fin.c ++ wordBytes fin.d ++
  wordBytes fin.e ++ wordBytes fin.f ++ wordBytes fin.g ++ wordBytes fin.h

theorem sha256_length (msg : List Nat) : (sha256 msg).length = 32 := by
  simp [sha256, wordBytes]

/-- UTF-8 bytes of one character (Python `str.encode()`). -/
def utf8Bytes (c : Char) : List Nat :=
  let n := c.toNat
  if n < 128 then [n]
  else if n < 2048 then [192 + n / 64, 128 + n % 64]
  else if n < 65536 then [224 + n / 4096, 128 + n / 64 % 64, 128 + n % 64]
  else [240 + n / 262144, 128 + n / 4096 % 64, 128 + n / 64 % 64, 128 + n % 64]

/-- Python `str.encode()` (UTF-8). -/
def strBytes (s : String) : List Nat := s.data.flatMap utf8Bytes

/-! ### The `bech32` library imported by wallet.py

Embedded from the reference BIP-173 implementation published on PyPI as
`bech32`.  Two API facts of that library drive the control flow of the
source and are modelled faithfully below:
  * `bech32.decode(hrp, addr)` (the segwit-address decoder) returns the
    TUPLE `(None, None)` on failure, never the value `None`; and
  * `bech32.encode(hrp, witver, witprog)` takes three arguments, so the
    two-argument call in `cbor_hex_to_bech32` raises `TypeError` on every
    invocation.
-/

def bech32GEN : List Nat := [0x3b6a57b2, 0x26508e6d, 0x1ea119fa, 0x3d4233dd, 0x2a1462b3]

def polymodStep (chk value : Nat) : Nat :=
  let top := chk / 2 ^ 25
  let chk2 := Nat.xor (chk % 2 ^ 25 * 32) value
  (List.range 5).foldl
    (fun acc i => if top / 2 ^ i % 2 = 1 then Nat.xor acc (bech32GEN.getD i 0) else acc)
    chk2

def bech32_polymod (values : List Nat) : Nat := values.foldl polymodStep 1

def bech32_hrp_expand (hrp : List Char) : List Nat :=
  hrp.map (fun c => c.toNat / 32) ++ [0] ++ hrp.map (fun c => c.toNat % 32)

def bech32_verify_checksum (hrp : List Char) (data : List Nat) : Bool :=
  bech32_polymod (bech32_hrp_expand hrp ++ data) == 1

def bech32_create_checksum (hrp : List Char) (data : List Nat) : List Nat :=
  let values := bech32_hrp_expand hrp ++ data
  let pm := Nat.xor (bech32_polymod (values ++ [0, 0, 0, 0, 0, 0])) 1
  (List.range 6).map fun i => pm / 2 ^ (5 * (5 - i)) % 32

def bech32CHARSET : List Char := "qpzry9x8gf2tvdw0s3jn54khce6mua7".data

/-- The library's `bech32_encode` (hrp + separator + data and checksum). -/
def bech32_encode (hrp : String) (data : List Nat) : String :=
  hrp ++ "1" ++ String.mk
    ((data ++ bech32_create_checksum hrp.data data).map fun d => bech32CHARSET.getD d '?')

/-- Index of the last `'1'` in the string (Python `str.rfind('1')`), if any. -/
def lastSep? (cs : List Char) : Option Nat :=
  match cs.reverse.findIdx? (· == '1') with
  | none => none
  | some i => some (cs.length - 1 - i)

/-- The library's `bech32_decode`: charset/case checks, checksum verification;
returns the human-readable part and the data values without the checksum.
`none` stands for the library's `(None, None)` failure result. -/
def bech32_decode (bech : String) : Option (String × List Nat) :=
  if bech.data.any (fun c => c.toNat < 33 || 126 < c.toNat) then none
  else if lowerStr bech ≠ bech ∧ upperStr bech ≠ bech then none
  else
    let lcs := bech.data.map Char.toLower
    match lastSep? lcs with
    | none => none
    | some pos =>
      if pos < 1 ∨ pos + 7 > lcs.length ∨ lcs.length > 90 then none
      else if ¬ (lcs.drop (pos + 1)).all (fun c => bech32CHARSET.contains c) then none
      else
        let hrp := lcs.take pos
        let data := (lcs.drop (pos + 1)).map fun c => (bech32CHARSET.findIdx? (· == c)).getD 0
        if ¬ bech32_verify_checksum hrp data then none
        else some (String.mk hrp, data.take (data.length - 6))

/-- The emission loop inside the library's `convertbits`: while
`bits >= tobits`, shift out one `tobits`-wide group.  Structural recursion on
a fuel counter (each iteration lowers `bits` by `tobits ≥ 1`, so fuel `bits`
suffices) so that the function reduces inside the kernel. -/
def emitLoopF : Nat → Nat → Nat → Nat → Nat → List Nat
  | 0, _, _, _, _ => []
  | fuel + 1, acc, tobits, maxv, bits =>
    if 0 < tobits ∧ tobits ≤ bits then
      Nat.land (acc / 2 ^ (bits - tobits)) maxv ::
        emitLoopF fuel acc tobits maxv (bits - tobits)
    else []

def emitLoop (acc tobits maxv bits : Nat) : List Nat :=
  emitLoopF bits acc tobits maxv bits

structure CBAcc where
  acc : Nat
  bits : Nat
  ret : List Nat
  bad : Bool

/-- The library's `convertbits(data, frombits, tobits, pad)`. -/
def convertbits (data : List Nat) (frombits tobits : Nat) (pad : Bool) : Option (List Nat) :=
  let maxv := 2 ^ tobits - 1
  let maxAcc := 2 ^ (frombits + tobits - 1) - 1
  let fin := data.foldl
    (fun (st : CBAcc) value =>
      if st.bad then st
      else if value / 2 ^ frombits > 0 then ⟨st.acc, st.bits, st.ret, true⟩
      else
        let acc := Nat.land (st.acc * 2 ^ frombits + value) maxAcc
        let bits := st.bits + frombits
        ⟨acc, bits % tobits, st.ret ++ emitLoop acc tobits maxv bits, false⟩)
    ⟨0, 0, [], false⟩
  if fin.bad then none
  else if pad then
    some (if fin.bits > 0 then fin.ret ++ [Nat.land (fin.acc * 2 ^ (tobits - fin.bits)) maxv]
          else fin.ret)
  else if fin.bits ≥ frombits ∨ Nat.land (fin.acc * 2 ^ (tobits - fin.bits)) maxv ≠ 0 then none
  else some fin.ret

/-- The library's segwit-address `decode(hrp, addr)`.  A `none` result models
the `(None, None)` tuple the Python function returns on failure (which the
source then feeds to `bytes(...)`, raising `TypeError`). -/
def segwit_decode (hrp addr : String) : Option (Nat × List Nat) :=
  match bech32_decode addr with
  | none => none
  | some (hrpgot, data) =>
    if hrpgot ≠ hrp then none
    else
      match data with
      | [] => none
      | v :: rest =>
        match convertbits rest 5 8 false with
        | none => none
        | some dec =>
          if dec.length < 2 ∨ dec.length > 40 then none
          else if v > 16 then none
          else if v = 0 ∧ dec.length ≠ 20 ∧ dec.length ≠ 32 then none
          else some (v, dec)

/-- The library's segwit-address `encode(hrp, witver, witprog)`, completing
the embedded bech32 API.  The source's only call of it (two-argument, in
`cbor_hex_to_bech32`) raises `TypeError`, so it contributes no behavior to
the flows; the concrete checksummed strings in the theorems below are values
of this function. -/
def segwit_encode (hrp : String) (witver : Nat) (witprog : List Nat) : Option String :=
  match convertbits witprog 8 5 true with
  | none => none
  | some d =>
    let ret := bech32_encode hrp (witver :: d)
    match segwit_decode hrp ret with
    | none => none
    | some _ => some ret

/-! ### Pure helpers of `CardanoWalletGenerator` -/

/-- The list `valid_prefixes` of wallet.py:245. -/
def validHrps : List String := ["addr", "addr_test", "stake", "stake_test"]

/-- wallet.py:236-248 `validate_address`: decode with `bech32.bech32_decode`
and check the human-readable part.  The Python body is wrapped in
`try/except: return False`; `bech32_decode` is total, so the embedding is a
total Boolean function and can never raise. -/
def validate_address (address : String) : Bool :=
  match bech32_decode address with
  | none => false
  | some (hrp, _) => validHrps.contains hrp

/-- wallet.py:491-508 `cbor_hex_to_bech32`.  The source strips a leading CBOR
`58 <len>` tag, then calls `bech32.encode(prefix, key_data)` — a two-argument
call of the library's three-argument `encode(hrp, witver, witprog)`, which
raises `TypeError` on every call and lands in the `except` fallback.  Hence:
if `bytes.fromhex` succeeded, the result is the fallback
`f"{prefix}1{key_data.hex()[:56]}"`; if `fromhex` itself raised, `key_data`
is not in `locals()` and the result is `f"{prefix}1placeholder"`. -/
def cbor_hex_to_bech32 (cborHex pre : String) : String :=
  match hexDecode? (if startsWithStr cborHex "58" then strDrop cborHex 4 else cborHex) with
  | some keyData => pre ++ "1" ++ strTake (hexEncode keyData) 56
  | none => pre ++ "1placeholder"

/-- wallet.py:897-923 `generate_proper_cbor_hex`.  The bech32 loop tries the
hrp `"addr_vkh"` first; when `bech32.decode` fails it returns `(None, None)`,
the `decoded is not None` test is satisfied by that tuple, and
`bytes(decoded[1])` = `bytes(None)` raises `TypeError`, which the enclosing
`except` turns into `return cbor_hex`.  So the loop iterations for
`"stake_vkh"`, `"addr_vk"`, `"stake_vk"` and the
`len == 64` / `len == 128` raw-hex branches are unreachable. -/
def generate_proper_cbor_hex (cborHex : String) : String :=
  if startsWithStr cborHex "58" then cborHex
  else
    match segwit_decode "addr_vkh" cborHex with
    | some (_, keyData) => "58" ++ hex2 keyData.length ++ hexEncode keyData
    | none => cborHex

/-- wallet.py:925-959 `generate_proper_credential_hash`.  Control flow as in
the source, given the library's tuple-returning `bech32.decode` (see
`generate_proper_cbor_hex` above): a 56-character input is returned as-is;
otherwise the first loop iteration (hrp `"addr_vkh"`) either succeeds —
first 28 bytes of the decoded program, hex-encoded — or raises `TypeError`
via `bytes(None)`, which the `except` handler maps to the SHA-256 fallback.
The CBOR `"58"` branch, the raw-hex branch and the later hrp iterations are
unreachable. -/
def generate_proper_credential_hash (key_data : String) : String :=
  if key_data.length = 56 then key_data
  else
    match segwit_decode "addr_vkh" key_data with
    | some (_, keyBytes) => hexEncode (keyBytes.take 28)
    | none => hexEncode ((sha256 (strBytes key_data)).take 28)

/-- The network-tag table inlined identically at wallet.py:159, 219, 256 and
794: `{"mainnet": "1", "testnet": "0", "preview": "0", "preprod": "0"}`. -/
def network_tags : List (String × String) :=
  [("mainnet", "1"), ("testnet", "0"), ("preview", "0"), ("preprod", "0")]

/-- `network_tags.get(network, "1")` as used by the address builders. -/
def networkTagOf (network : String) : String :=
  (network_tags.lookup network).getD "1"

/-- wallet.py:870-887: the `type_mapping` table of `create_cardano_key_file`. -/
def type_mapping : List (String × String) :=
  [("payment_skey", "PaymentSigningKeyShelley_ed25519"),
   ("payment_vkey", "PaymentVerificationKeyShelley_ed25519"),
   ("stake_skey", "StakeSigningKeyShelley_ed25519"),
   ("stake_vkey", "StakeVerificationKeyShelley_ed25519"),
   ("cold_skey", "StakePoolSigningKey_ed25519"),
   ("cold_vkey", "StakePoolVerificationKey_ed25519"),
   ("hot_skey", "KesSigningKey_ed25519"),
   ("hot_vkey", "KesVerificationKey_ed25519"),
   ("drep_skey", "DRepSigningKey_ed25519"),
   ("drep_vkey", "DRepVerificationKey_ed25519"),
   ("ms_payment_skey", "PaymentSigningKeyShelley_ed25519"),
   ("ms_payment_vkey", "PaymentVerificationKeyShelley_ed25519"),
   ("ms_stake_skey", "StakeSigningKeyShelley_ed25519"),
   ("ms_stake_vkey", "StakeVerificationKeyShelley_ed25519"),
   ("ms_drep_skey", "DRepSigningKey_ed25519"),
   ("ms_drep_vkey", "DRepVerificationKey_ed25519")]

/-- `json.dumps({"type": ty, "description": d, "cborHex": c}, indent=2)` for
field values that need no JSON escaping (all values in this development). -/
def jsonKeyFile (ty d c : String) : String :=
  "\x7b\n  \"type\": \"" ++ ty ++ "\",\n  \"description\": \"" ++ d ++
  "\",\n  \"cborHex\": \"" ++ c ++ "\"\n\x7d"

/-- wallet.py:865-895 `create_cardano_key_file`. -/
def create_cardano_key_file (key_type d cbor_hex : String) : String :=
  jsonKeyFile ((type_mapping.lookup key_type).getD key_type) d cbor_hex

/-! ### Oracle traces and effect state

Every `subprocess.run` call of the source consumes the next element of a
reply trace.  `fail e` models a non-zero exit status with stderr `e`;
`out s` models exit status 0 with stdout (or output-file contents) `s`;
`keypair vk sk` models a `cardano-cli ... key-gen` invocation that wrote two
key-file envelopes whose `cborHex` fields are `vk` and `sk` (the JSON
envelope round-trip through the temporary directory is elided).  The state
also records every issued command line together with its stdin, the contents
of the ticker's shared-mnemonic file, and the wallet files written so far
(directory, file name, contents). -/

inductive OracleReply where
  | fail (stderr : String)
  | out (stdout : String)
  | keypair (vkey skey : String)
deriving DecidableEq, Repr

structure WState where
  replies : List OracleReply
  sharedMnemonic : Option String
  log : List (List String × String)
  saved : List (String × String × String)
deriving DecidableEq, Repr

inductive MResult (α : Type) where
  | ok (a : α) (st : WState)
  | err (msg : String) (st : WState)
deriving DecidableEq, Repr

/-- Computations of the wallet generator: state passing with Python-exception
style aborts (`click.ClickException`, `KeyError`) that carry the state at the
point of failure, since files already written stay on disk. -/
def M (α : Type) : Type := WState → MResult α

def M.pure (a : α) : M α := fun st => .ok a st

def M.bind (x : M α) (f : α → M β) : M β := fun st =>
  match x st with
  | .ok a st' => f a st'
  | .err e st' => .err e st'

instance : Monad M where
  pure := M.pure
  bind := M.bind

def M.throw (e : String) : M α := fun st => .err e st

def MResult.state : MResult α → WState
  | .ok _ st => st
  | .err _ st => st

def MResult.errMsg? : MResult α → Option String
  | .ok _ _ => none
  | .err e _ => some e

def MResult.val? : MResult α → Option α
  | .ok a _ => some a
  | .err _ _ => none

theorem M.run_bind (x : M α) (f : α → M β) (st : WState) :
    (x >>= f) st = match x st with
      | .ok a st' => f a st'
      | .err e st' => .err e st' := rfl

theorem M.run_pure (a : α) (st : WState) : (Pure.pure a : M α) st = .ok a st := rfl

/-- One `subprocess.run(cmd, input=..., capture_output=True, text=True)` whose
stdout is consumed with `.strip()`; a non-zero exit raises `ClickException`
with the function-specific message prefixed to stderr. -/
def runTool (cmd : List String) (input errPre : String) : M String := fun st =>
  match st.replies with
  | [] => .err "cardano tool unavailable"
      { st with log := st.log ++ [(cmd, input)] }
  | .fail e :: rest => .err (errPre ++ e)
      { st with replies := rest, log := st.log ++ [(cmd, input)] }
  | .out s :: rest => .ok (pyStrip s)
      { st with replies := rest, log := st.log ++ [(cmd, input)] }
  | .keypair _ _ :: rest => .err "unexpected tool output"
      { st with replies := rest, log := st.log ++ [(cmd, input)] }

/-- One `cardano-cli ... key-gen` invocation writing a verification and a
signing key file, whose `cborHex` fields the source reads back via
`json.loads`. -/
def runKeyGen (cmd : List String) (errPre : String) : M (String × String) := fun st =>
  match st.replies with
  | [] => .err "cardano tool unavailable"
      { st with log := st.log ++ [(cmd, "")] }
  | .fail e :: rest => .err (errPre ++ e)
      { st with replies := rest, log := st.log ++ [(cmd, "")] }
  | .keypair vk sk :: rest => .ok (vk, sk)
      { st with replies := rest, log := st.log ++ [(cmd, "")] }
  | .out _ :: rest => .err "unexpected tool output"
      { st with replies := rest, log := st.log ++ [(cmd, "")] }

/-- A Python dict access `wallet_data[k]`: `KeyError` if absent. -/
def dictGet (wd : List (String × String)) (k : String) : M String := fun st =>
  match wd.lookup k with
  | some v => .ok v st
  | none => .err ("KeyError: " ++ k) st

/-- Writing one wallet file under the purpose directory. -/
def writeF (purpose fname content : String) : M Unit := fun st =>
  .ok () { st with saved := st.saved ++ [(purpose, fname, content)] }

/-! ### Flows of `CardanoWalletGenerator`

The generator's `self.ticker` is passed as an explicit argument, and the
fresh 24-word phrase that `self.mnemo.generate(strength=256)` would return is
passed as the argument `fresh` (mnemonic generation is delegated to the
external `mnemonic` library). -/

/-- wallet.py:92: the strength requested from `Mnemonic.generate`. -/
def mnemonic_strength : Nat := 256

/-- Modelled from the spec: the external BIP-39 mnemonic library (not part of
src/) maps an entropy strength in bits to `(strength + strength/32) / 11`
words, so 256-bit strength yields a 24-word recovery phrase. -/
def bip39WordCount (strength : Nat) : Nat := (strength + strength / 32) / 11

/-- wallet.py:83-97 `get_or_create_shared_mnemonic`: read-if-exists (with
`.strip()`) else generate-and-store. -/
def get_or_create_shared_mnemonic (fresh : String) : M String := fun st =>
  match st.sharedMnemonic with
  | some m => .ok (pyStrip m) st
  | none => .ok fresh { st with sharedMnemonic := some fresh }

/-- wallet.py:103-114 `mnemonic_to_root_key`. -/
def mnemonic_to_root_key (mnemonic : String) : M String :=
  runTool ["key", "from-recovery-phrase", "Shelley"] mnemonic
    "Error generating root key: "

/-- wallet.py:116-132 `derive_payment_key`. -/
def derive_payment_key (root_key _purpose : String) : M (String × String) := do
  let skey ← runTool ["key", "child", "1852H/1815H/0H/0/0"] root_key
    "Error deriving payment key: "
  let vkey ← runTool ["key", "public", "--with-chain-code"] skey
    "Error generating public key: "
  pure (skey, vkey)

/-- wallet.py:134-152 `derive_staking_key`. -/
def derive_staking_key (root_key : String) : M (String × String) := do
  let skey ← runTool ["key", "child", "1852H/1815H/0H/2/0"] root_key
    "Error deriving staking key: "
  let vkey ← runTool ["key", "public", "--with-chain-code"] skey
    "Error generating staking public key: "
  pure (skey, vkey)

/-- wallet.py:605-633 `derive_cold_key`. -/
def derive_cold_key (root_key : String) : M (String × String) := do
  let skey ← runTool ["key", "child", "1852H/1815H/0H/0/0"] root_key
    "Error deriving cold key: "
  let vkey ← runTool ["key", "public", "--with-chain-code"] skey
    "Error getting cold public key: "
  pure (skey, vkey)

/-- wallet.py:635-661 `derive_hot_key`. -/
def derive_hot_key (root_key : String) : M (String × String) := do
  let skey ← runTool ["key", "child", "1852H/1815H/0H/2/0"] root_key
    "Error deriving hot key: "
  let vkey ← runTool ["key", "public", "--with-chain-code"] skey
    "Error getting hot public key: "
  pure (skey, vkey)

/-- wallet.py:663-691 `derive_drep_key`. -/
def derive_drep_key (root_key : String) : M (String × String) := do
  let skey ← runTool ["key", "child", "1852H/1815H/0H/3/0"] root_key
    "Error deriving DRep key: "
  let vkey ← runTool ["key", "public", "--with-chain-code"] skey
    "Error getting DRep public key: "
  pure (skey, vkey)

/-- wallet.py:693-725 `derive_ms_payment_key`. -/
def derive_ms_payment_key (root_key : String) : M (String × String) := do
  let skey ← runTool ["key", "child", "1852H/1815H/0H/4/0"] root_key
    "Error deriving MS payment key: "
  let vkey ← runTool ["key", "public", "--with-chain-code"] skey
    "Error getting MS payment public key: "
  pure (skey, vkey)

/-- wallet.py:727-757 `derive_ms_stake_key`. -/
def derive_ms_stake_key (root_key : String) : M (String × String) := do
  let skey ← runTool ["key", "child", "1852H/1815H/0H/5/0"] root_key
    "Error deriving MS stake key: "
  let vkey ← runTool ["key", "public", "--with-chain-code"] skey
    "Error getting MS stake public key: "
  pure (skey, vkey)

/-- wallet.py:759-787 `derive_ms_drep_key`. -/
def derive_ms_drep_key (root_key : String) : M (String × String) := do
  let skey ← runTool ["key", "child", "1852H/1815H/0H/6/0"] root_key
    "Error deriving MS DRep key: "
  let vkey ← runTool ["key", "public", "--with-chain-code"] skey
    "Error getting MS DRep public key: "
  pure (skey, vkey)

/-- wallet.py:154-212 `generate_payment_address`: payment address, then a
stake address (computed but unused by the source), then the delegation
combination fed with the payment address on stdin. -/
def generate_payment_address (payment_vkey staking_vkey network : String) : M String := do
  let tag := networkTagOf network
  let payment_addr ← runTool ["address", "payment", "--network-tag", tag] payment_vkey
    "Error generating payment address: "
  let _stake_addr ← runTool ["address", "stake", "--network-tag", tag] staking_vkey
    "Error generating staking address: "
  let base ← runTool ["address", "delegation", staking_vkey] payment_addr
    "Error generating base address: "
  pure base

/-- wallet.py:214-234 `generate_staking_address`. -/
def generate_staking_address (staking_vkey network : String) : M String :=
  runTool ["address", "stake", "--network-tag", networkTagOf network] staking_vkey
    "Error generating staking address: "

/-- wallet.py:250-308 `generate_address_candidate`: a byte-for-byte duplicate
of the `generate_payment_address` body, kept as a separate definition exactly
as in the source. -/
def generate_address_candidate (payment_vkey staking_vkey network : String) : M String := do
  let tag := networkTagOf network
  let payment_addr ← runTool ["address", "payment", "--network-tag", tag] payment_vkey
    "Error generating payment address: "
  let _stake_addr ← runTool ["address", "stake", "--network-tag", tag] staking_vkey
    "Error generating staking address: "
  let base ← runTool ["address", "delegation", staking_vkey] payment_addr
    "Error generating base address: "
  pure base

/-- wallet.py:310-312 `verify_address_candidates`. -/
def verify_address_candidates (base_addr candidate_addr : String) : Bool :=
  base_addr == candidate_addr

/-- wallet.py:789-809 `generate_payment_only_address`. -/
def generate_payment_only_address (payment_vkey network : String) : M String :=
  runTool ["address", "payment", "--network-tag", networkTagOf network] payment_vkey
    "Error generating payment address: "

/-- wallet.py:314-372 `save_wallet_files` (file permissions elided). -/
def save_wallet_files (ticker purpose : String) (wd : List (String × String)) : M Unit := do
  let v ← dictGet wd "base_addr"
  writeF purpose (ticker ++ "-" ++ purpose ++ ".base_addr") v
  let v ← dictGet wd "base_addr_candidate"
  writeF purpose (ticker ++ "-" ++ purpose ++ ".base_addr.candidate") v
  let v ← dictGet wd "reward_addr"
  writeF purpose (ticker ++ "-" ++ purpose ++ ".reward_addr") v
  let v ← dictGet wd "reward_addr_candidate"
  writeF purpose (ticker ++ "-" ++ purpose ++ ".reward_addr.candidate") v
  let v ← dictGet wd "staking_skey"
  writeF purpose (ticker ++ "-" ++ purpose ++ ".staking_skey") v
  let v ← dictGet wd "staking_vkey"
  writeF purpose (ticker ++ "-" ++ purpose ++ ".staking_vkey") v
  let v ← dictGet wd "mnemonic"
  writeF purpose (ticker ++ "-" ++ purpose ++ ".mnemonic.txt") v

/-- wallet.py:510-579 `generate_wallet`: shared mnemonic, root key, payment
and staking key pairs, addresses, candidate recomputation, verification,
validation, then persistence. -/
def generate_wallet (ticker purpose network fresh : String) :
    M (List (String × String)) := do
  let mnemonic ← get_or_create_shared_mnemonic fresh
  let root_key ← mnemonic_to_root_key mnemonic
  let pk ← derive_payment_key root_key purpose
  let sk ← derive_staking_key root_key
  let base_addr ← generate_payment_address pk.2 sk.2 network
  let reward_addr ← generate_staking_address sk.2 network
  let base_addr_candidate ← generate_address_candidate pk.2 sk.2 network
  let reward_addr_candidate ← generate_staking_address sk.2 network
  if verify_address_candidates base_addr base_addr_candidate = false then
    M.throw "Address verification failed: base address mismatch"
  else if verify_address_candidates reward_addr reward_addr_candidate = false then
    M.throw "Address verification failed: reward address mismatch"
  else if validate_address base_addr = false then
    M.throw "Invalid base address generated"
  else if validate_address reward_addr = false then
    M.throw "Invalid reward address generated"
  else do
    let wallet_data := [("base_addr", base_addr),
                        ("base_addr_candidate", base_addr_candidate),
                        ("reward_addr", reward_addr),
                        ("reward_addr_candidate", reward_addr_candidate),
                        ("staking_skey", sk.1),
                        ("staking_vkey", sk.2),
                        ("mnemonic", mnemonic)]
    save_wallet_files ticker purpose wallet_data
    pure wallet_data

/-- The key-file envelope of the import flow (spec §6): the source reads each
supplied file and keeps only its `cborHex` field. -/
structure KeyFileEnv where
  ktype : String
  description : String
  cborHex : String
deriving DecidableEq, Repr

def envAdd (wd : List (String × String)) (k : String) :
    Option KeyFileEnv → List (String × String)
  | some env => wd ++ [(k, env.cborHex)]
  | none => wd

/-- wallet.py:374-417 `import_existing_keys`: for each supplied (and existing)
key file, store its `cborHex` under the corresponding dict key, in source
order. -/
def import_existing_keys (pv ps sv ss : Option KeyFileEnv) : List (String × String) :=
  envAdd (envAdd (envAdd (envAdd [] "payment_vkey" pv) "payment_skey" ps)
    "staking_vkey" sv) "staking_skey" ss

/-- wallet.py:419-489 `generate_wallet_with_import`: convert the imported
`cborHex` keys via `cbor_hex_to_bech32`, build and validate addresses — with
no candidate recomputation and no `verify_address_candidates` call — then
hand the six-key dict to `save_wallet_files`. -/
def generate_wallet_with_import (ticker purpose network : String)
    (pv ps sv ss : Option KeyFileEnv) : M (List (String × String)) := do
  let imported := import_existing_keys pv ps sv ss
  if imported.isEmpty then
    M.throw "No valid keys provided for import"
  else do
    let pvb ← dictGet imported "payment_vkey"
    let payment_vkey_bech32 := cbor_hex_to_bech32 pvb "addr_vk"
    let svb ← dictGet imported "staking_vkey"
    let staking_vkey_bech32 := cbor_hex_to_bech32 svb "stake_vk"
    let base_addr ← generate_payment_address payment_vkey_bech32 staking_vkey_bech32 network
    let reward_addr ← generate_staking_address staking_vkey_bech32 network
    if validate_address base_addr = false then
      M.throw "Invalid base address generated from imported keys"
    else if validate_address reward_addr = false then
      M.throw "Invalid reward address generated from imported keys"
    else do
      let wallet_data := [("base_addr", base_addr),
                          ("reward_addr", reward_addr),
                          ("payment_skey", (imported.lookup "payment_skey").getD ""),
                          ("payment_vkey", (imported.lookup "payment_vkey").getD ""),
                          ("staking_skey", (imported.lookup "staking_skey").getD ""),
                          ("staking_vkey", (imported.lookup "staking_vkey").getD "")]
      save_wallet_files ticker purpose wallet_data
      pure wallet_data

/-- wallet.py:1632-1640: the placeholder delegation certificate emitted when
`cardano-cli stake-address delegation-certificate` fails (it always does,
since the source passes the literal pool id `placeholder_pool_id`). -/
def placeholderDelegCert : String :=
  jsonKeyFile "StakeDelegationCertificate"
    "Stake Delegation Certificate (placeholder)" "82018200581cplaceholder_pool_id_here"

/-- wallet.py:1616-1643: the delegation-certificate step, the only external
call whose failure is absorbed (into the placeholder) instead of raised. -/
def delegationCertStep (cmd : List String) : M String := fun st =>
  match st.replies with
  | [] => .err "cardano tool unavailable"
      { st with log := st.log ++ [(cmd, "")] }
  | .fail _ :: rest => .ok placeholderDelegCert
      { st with replies := rest, log := st.log ++ [(cmd, "")] }
  | .out s :: rest => .ok (pyStrip s)
      { st with replies := rest, log := st.log ++ [(cmd, "")] }
  | .keypair _ _ :: rest => .err "unexpected tool output"
      { st with replies := rest, log := st.log ++ [(cmd, "")] }

/-- wallet.py:1219-1645 `generate_keys_with_cardano_cli`: every key pair is
produced by a fresh `cardano-cli ... key-gen` call; the shared mnemonic and
the `cardano-address` derivation commands are never used.  The returned dict
holds the keys in source assignment order and contains no `"mnemonic"`
entry.  The temporary key-file path arguments of each command line are
elided from the modelled argv (the file round trips are part of the
`OracleReply` contract). -/
def generate_keys_with_cardano_cli (_purpose network : String) :
    M (List (String × String)) := do
  let netArgs := if network ≠ "mainnet" then ["--testnet-magic", "1"] else ["--mainnet"]
  let p ← runKeyGen ["address", "key-gen"] "Error generating payment keys: "
  let s ← runKeyGen ["stake-address", "key-gen"] "Error generating stake keys: "
  let payment_cred ← runTool ["address", "key-hash"] ""
    "Error generating payment credential: "
  let stake_cred ← runTool ["stake-address", "key-hash"] ""
    "Error generating stake credential: "
  let base_addr ← runTool (["address", "build"] ++ netArgs) ""
    "Error generating base address: "
  let payment_addr ← runTool (["address", "build"] ++ netArgs) ""
    "Error generating payment address: "
  let reward_addr ← runTool (["stake-address", "build"] ++ netArgs) ""
    "Error generating reward address: "
  let stake_cert ← runTool ["stake-address", "registration-certificate"] ""
    "Error generating stake certificate: "
  let cold ← runKeyGen ["stake-pool", "key-gen"] "Error generating cold keys: "
  let hot ← runKeyGen ["node", "key-gen-KES"] "Error generating hot keys: "
  let drep ← runKeyGen ["conway", "governance", "drep", "key-gen"]
    "Error generating DRep keys: "
  let msp ← runKeyGen ["address", "key-gen"] "Error generating MS payment keys: "
  let mss ← runKeyGen ["stake-address", "key-gen"] "Error generating MS stake keys: "
  let msd ← runKeyGen ["conway", "governance", "drep", "key-gen"]
    "Error generating MS DRep keys: "
  let ms_payment_cred ← runTool ["address", "key-hash"] ""
    "Error generating MS payment credential: "
  let ms_stake_cred ← runTool ["stake-address", "key-hash"] ""
    "Error generating MS stake credential: "
  let delegation_cert ← delegationCertStep
    ["stake-address", "delegation-certificate", "--stake-pool-id", "placeholder_pool_id"]
  pure [("payment_vkey", p.1), ("payment_skey", p.2),
        ("staking_vkey", s.1), ("staking_skey", s.2),
        ("payment_cred", payment_cred), ("stake_cred", stake_cred),
        ("base_addr", base_addr), ("payment_addr", payment_addr),
        ("reward_addr", reward_addr), ("stake_cert", stake_cert),
        ("cold_vkey", cold.1), ("cold_skey", cold.2),
        ("hot_vkey", hot.1), ("hot_skey", hot.2),
        ("drep_vkey", drep.1), ("drep_skey", drep.2),
        ("ms_payment_vkey", msp.1), ("ms_payment_skey", msp.2),
        ("ms_stake_vkey", mss.1), ("ms_stake_skey", mss.2),
        ("ms_drep_vkey", msd.1), ("ms_drep_skey", msd.2),
        ("ms_payment_cred", ms_payment_cred), ("ms_stake_cred", ms_stake_cred),
        ("delegation_cert", delegation_cert)]

/-- One key-file write of `save_complete_wallet_files`: read the dict entry,
wrap it via `create_cardano_key_file` ∘ `generate_proper_cbor_hex`. -/
def writeKeyFile (purpose fname kt d : String) (wd : List (String × String))
    (dictKey : String) : M Unit := do
  let v ← dictGet wd dictKey
  writeF purpose fname (create_cardano_key_file kt d (generate_proper_cbor_hex v))

/-- wallet.py:970-1217 `save_complete_wallet_files`, writes in source order;
the final step reads `wallet_data["mnemonic"]` (wallet.py:1199). -/
def save_complete_wallet_files (ticker purpose : String)
    (wd : List (String × String)) : M Unit := do
  let v ← dictGet wd "base_addr"
  writeF purpose "base.addr" v
  let v ← dictGet wd "payment_addr"
  writeF purpose "payment.addr" v
  let v ← dictGet wd "reward_addr"
  writeF purpose "reward.addr" v
  writeKeyFile purpose "payment.skey" "payment_skey" "Payment Signing Key" wd "payment_skey"
  writeKeyFile purpose "payment.vkey" "payment_vkey" "Payment Verification Key" wd "payment_vkey"
  writeKeyFile purpose "stake.skey" "stake_skey" "Stake Signing Key" wd "staking_skey"
  writeKeyFile purpose "stake.vkey" "stake_vkey" "Stake Verification Key" wd "staking_vkey"
  writeKeyFile purpose "cc-cold.skey" "cold_skey" "Stake Pool Operator Signing Key" wd "cold_skey"
  writeKeyFile purpose "cc-cold.vkey" "cold_vkey" "Stake Pool Operator Verification Key" wd "cold_vkey"
  writeKeyFile purpose "cc-hot.skey" "hot_skey" "KES Signing Key" wd "hot_skey"
  writeKeyFile purpose "cc-hot.vkey" "hot_vkey" "KES Verification Key" wd "hot_vkey"
  writeKeyFile purpose "drep.skey" "drep_skey" "DRep Signing Key" wd "drep_skey"
  writeKeyFile purpose "drep.vkey" "drep_vkey" "DRep Verification Key" wd "drep_vkey"
  writeKeyFile purpose "ms_payment.skey" "ms_payment_skey"
    "Multi-Signature Payment Signing Key" wd "ms_payment_skey"
  writeKeyFile purpose "ms_payment.vkey" "ms_payment_vkey"
    "Multi-Signature Payment Verification Key" wd "ms_payment_vkey"
  writeKeyFile purpose "ms_stake.skey" "ms_stake_skey"
    "Multi-Signature Stake Signing Key" wd "ms_stake_skey"
  writeKeyFile purpose "ms_stake.vkey" "ms_stake_vkey"
    "Multi-Signature Stake Verification Key" wd "ms_stake_vkey"
  writeKeyFile purpose "ms_drep.skey" "ms_drep_skey"
    "Multi-Signature DRep Signing Key" wd "ms_drep_skey"
  writeKeyFile purpose "ms_drep.vkey" "ms_drep_vkey"
    "Multi-Signature DRep Verification Key" wd "ms_drep_vkey"
  let v ← dictGet wd "payment_cred"
  writeF purpose "payment.cred" (generate_proper_credential_hash v)
  let v ← dictGet wd "stake_cred"
  writeF purpose "stake.cred" (generate_proper_credential_hash v)
  let v ← dictGet wd "ms_payment_cred"
  writeF purpose "ms_payment.cred" (generate_proper_credential_hash v)
  let v ← dictGet wd "ms_stake_cred"
  writeF purpose "ms_stake.cred" (generate_proper_credential_hash v)
  let v ← dictGet wd "stake_cert"
  writeF purpose "stake.cert" v
  let v ← dictGet wd "delegation_cert"
  writeF purpose "delegation.cert" v
  let v ← dictGet wd "mnemonic"
  writeF purpose (ticker ++ "-" ++ purpose ++ ".mnemonic.txt") v

/-- wallet.py:581-603 `generate_stake_pool_files`: the full stake-pool bundle
flow — `generate_keys_with_cardano_cli` then `save_complete_wallet_files`. -/
def generate_stake_pool_files (ticker purpose network : String) :
    M (List (String × String)) := do
  let wd ← generate_keys_with_cardano_cli purpose network
  save_complete_wallet_files ticker purpose wd
  pure wd

/-! ### The spec's credential-hash policy (for refinement comparison)

`spec_deriveCredentialHash` formalises, from the words of spec §4.1, the
ordered first-match-wins fallback chain (a)-(e) that the spec attributes to
`deriveCredentialHash`; it is compared against the source's
`generate_proper_credential_hash` above. -/

/-- The spec's attempt (b): first successful checksummed-text decode among the
recognized verification-key prefixes, in the order the source lists them. -/
def decodeFirstHrp : List String → String → Option (Nat × List Nat)
  | [], _ => none
  | h :: t, input =>
    match segwit_decode h input with
    | some r => some r
    | none => decodeFirstHrp t input

/-- The spec's attempts (d) then (e): raw hex of length at least 56 keeps its
first 56 characters, otherwise SHA-256 of the input truncated to 28 bytes. -/
def specCredTail (input : String) : String :=
  if input.length ≥ 56 then strTake input 56
  else hexEncode ((sha256 (strBytes input)).take 28)

/-- Spec §4.1 `deriveCredentialHash`, attempts (a)-(e) in order with
first-match-wins. -/
def spec_deriveCredentialHash (input : String) : String :=
  if input.length = 56 then input
  else
    match decodeFirstHrp ["addr_vkh", "stake_vkh", "addr_vk", "stake_vk"] input with
    | some (_, payload) => hexEncode (payload.take 28)
    | none =>
      if startsWithStr input "58" then
        match hexDecode? (strDrop input 4) with
        | some bs => hexEncode (bs.take 28)
        | none => specCredTail input
      else specCredTail input

/-! ### Helper lemmas -/

@[simp] theorem MResult.state_ok (a : α) (st : WState) :
    (MResult.ok a st).state = st := rfl

@[simp] theorem MResult.state_err (e : String) (st : WState) :
    (MResult.err e st : MResult α).state = st := rfl

@[simp] theorem MResult.errMsg_ok (a : α) (st : WState) :
    (MResult.ok a st).errMsg? = none := rfl

@[simp] theorem MResult.errMsg_err (e : String) (st : WState) :
    (MResult.err e st : MResult α).errMsg? = some e := rfl

@[simp] theorem MResult.val_ok (a : α) (st : WState) :
    (MResult.ok a st).val? = some a := rfl

@[simp] theorem MResult.val_err (e : String) (st : WState) :
    (MResult.err e st : MResult α).val? = none := rfl

theorem runTool_state_log (cmd : List String) (inp pre : String) (st : WState) :
    ((runTool cmd inp pre st).state).log = st.log ++ [(cmd, inp)] := by
  unfold runTool
  rcases st.replies with _ | ⟨r, rest⟩
  · rfl
  · cases r <;> rfl

/-- A computation that only ever appends to the command log. -/
def LogExt (x : M α) : Prop :=
  ∀ st, ∃ tail, ((x st).state).log = st.log ++ tail

theorem logExt_pure (a : α) : LogExt (pure a : M α) := fun st => ⟨[], by simp [pure, M.pure]⟩

theorem logExt_runTool (cmd : List String) (inp pre : String) :
    LogExt (runTool cmd inp pre) :=
  fun st => ⟨[(cmd, inp)], runTool_state_log cmd inp pre st⟩

theorem logExt_bind {x : M α} {f : α → M β} (hx : LogExt x)
    (hf : ∀ a, LogExt (f a)) : LogExt (x >>= f) := by
  intro st
  show ∃ tail, ((M.bind x f st).state).log = st.log ++ tail
  unfold M.bind
  cases h : x st with
  | ok a st' =>
    obtain ⟨t1, h1⟩ := hx st
    rw [h] at h1
    simp only [MResult.state_ok] at h1
    obtain ⟨t2, h2⟩ := hf a st'
    exact ⟨t1 ++ t2, by rw [h2, h1, List.append_assoc]⟩
  | err e st' =>
    obtain ⟨t1, h1⟩ := hx st
    rw [h] at h1
    exact ⟨t1, h1⟩

/-- Binding a `runTool` call in front of any log-extending continuation puts
that call's command line first among the appended log entries. -/
theorem bind_runTool_log (cmd : List String) (inp pre : String) (g : String → M α)
    (hg : ∀ a, LogExt (g a)) (st : WState) :
    ∃ tail, (((runTool cmd inp pre >>= g) st).state).log =
      st.log ++ ((cmd, inp) :: tail) := by
  show ∃ tail, ((M.bind (runTool cmd inp pre) g st).state).log = _
  unfold M.bind runTool
  rcases st.replies with _ | ⟨r, rest⟩
  · exact ⟨[], by simp⟩
  · cases r with
    | fail e => exact ⟨[], by simp⟩
    | keypair v k => exact ⟨[], by simp⟩
    | out s =>
      obtain ⟨t2, h2⟩ :=
        hg (pyStrip s) { st with replies := rest, log := st.log ++ [(cmd, inp)] }
      exact ⟨t2, by simpa using h2⟩

/-! ### Claim theorems -/

/-- C6: `validate_address` returns `true` exactly when the input decodes as
checksummed text (checksum verified inside `bech32_decode`) whose
human-readable prefix lies in addr/addr_test/stake/stake_test; any other
input — including the empty string and a truncated address — yields `false`.
The embedding is a total Boolean function, so (matching the source's
`try/except` wrapper) no exception can surface. -/
theorem validate_address_spec :
    (∀ a : String, validate_address a = true ↔
      ∃ hrp d, bech32_decode a = some (hrp, d) ∧ hrp ∈ validHrps) ∧
    validate_address "" = false ∧
    validate_address "addr1mykd6t" = true ∧
    validate_address "stake16dwawz" = true ∧
    validate_address "addr1mykd6" = false := by
  refine ⟨?_, by decide, by decide, by decide, by decide⟩
  intro a
  unfold validate_address
  cases h : bech32_decode a with
  | none => simp
  | some p =>
    obtain ⟨hrp, d⟩ := p
    simp [List.contains_iff_exists_mem_beq]

/-- C7: the address builders map mainnet to network tag 1 and each of
testnet, preview and preprod to network tag 0, so preview and preprod get the
same tag as testnet; the tag is the one passed on the command line by
`generate_staking_address` and `generate_payment_address`. -/
theorem network_tag_mapping :
    networkTagOf "mainnet" = "1" ∧ networkTagOf "testnet" = "0" ∧
    networkTagOf "preview" = "0" ∧ networkTagOf "preprod" = "0" ∧
    networkTagOf "preview" = networkTagOf "testnet" ∧
    (∀ svk n st, ((generate_staking_address svk n st).state).log =
      st.log ++ [(["address", "stake", "--network-tag", networkTagOf n], svk)]) ∧
    (∀ pvk svk n st, ∃ tail,
      ((generate_payment_address pvk svk n st).state).log =
        st.log ++ ((["address", "payment", "--network-tag", networkTagOf n], pvk) :: tail)) := by
  refine ⟨rfl, rfl, rfl, rfl, rfl, ?_, ?_⟩
  · intro svk n st
    exact runTool_state_log _ _ _ _
  · intro pvk svk n st
    simp only [generate_payment_address]
    exact bind_runTool_log _ _ _ _
      (fun a => logExt_bind (logExt_runTool _ _ _) fun b =>
        logExt_bind (logExt_runTool _ _ _) fun c => logExt_pure _) st

/-- C8: each key-derivation routine passes a fixed, role-specific derivation
path to the external tool as its first command, for every root key and every
state: Payment and Cold use 1852H/1815H/0H/0/0, Staking and Hot/KES use
1852H/1815H/0H/2/0, DRep 1852H/1815H/0H/3/0, multisig payment/staking/DRep
use chain indices 4, 5 and 6. -/
theorem derivation_paths_fixed :
    ∀ root purpose st,
      (∃ t, ((derive_payment_key root purpose st).state).log =
        st.log ++ ((["key", "child", "1852H/1815H/0H/0/0"], root) :: t)) ∧
      (∃ t, ((derive_staking_key root st).state).log =
        st.log ++ ((["key", "child", "1852H/1815H/0H/2/0"], root) :: t)) ∧
      (∃ t, ((derive_cold_key root st).state).log =
        st.log ++ ((["key", "child", "1852H/1815H/0H/0/0"], root) :: t)) ∧
      (∃ t, ((derive_hot_key root st).state).log =
        st.log ++ ((["key", "child", "1852H/1815H/0H/2/0"], root) :: t)) ∧
      (∃ t, ((derive_drep_key root st).state).log =
        st.log ++ ((["key", "child", "1852H/1815H/0H/3/0"], root) :: t)) ∧
      (∃ t, ((derive_ms_payment_key root st).state).log =
        st.log ++ ((["key", "child", "1852H/1815H/0H/4/0"], root) :: t)) ∧
      (∃ t, ((derive_ms_stake_key root st).state).log =
        st.log ++ ((["key", "child", "1852H/1815H/0H/5/0"], root) :: t)) ∧
      (∃ t, ((derive_ms_drep_key root st).state).log =
        st.log ++ ((["key", "child", "1852H/1815H/0H/6/0"], root) :: t)) := by
  intro root purpose st
  refine ⟨?_, ?_, ?_, ?_, ?_, ?_, ?_, ?_⟩ <;>
    (simp only [derive_payment_key, derive_staking_key, derive_cold_key,
       derive_hot_key, derive_drep_key, derive_ms_payment_key,
       derive_ms_stake_key, derive_ms_drep_key]
     exact bind_runTool_log _ _ _ _
       (fun a => logExt_bind (logExt_runTool _ _ _) fun b => logExt_pure _) st)

/-- C10: a network string outside mainnet/testnet/preview/preprod silently
falls back to network tag 1 (the mainnet tag) — `network_tags.get(network,
"1")` — so `generate_payment_only_address` issues a mainnet-tagged command
instead of failing. -/
theorem unknown_network_maps_to_mainnet_tag :
    ∀ n : String, n ∉ ["mainnet", "testnet", "preview", "preprod"] →
      networkTagOf n = "1" ∧
      (∀ pvk st, ((generate_payment_only_address pvk n st).state).log =
        st.log ++ [(["address", "payment", "--network-tag", "1"], pvk)]) := by
  intro n hn
  simp only [List.mem_cons, List.not_mem_nil, or_false, not_or] at hn
  obtain ⟨h1, h2, h3, h4⟩ := hn
  have ht : networkTagOf n = "1" := by
    simp [networkTagOf, network_tags, List.lookup,
      beq_eq_false_iff_ne.mpr h1, beq_eq_false_iff_ne.mpr h2,
      beq_eq_false_iff_ne.mpr h3, beq_eq_false_iff_ne.mpr h4]
  refine ⟨ht, ?_⟩
  intro pvk st
  show ((runTool ["address", "payment", "--network-tag", networkTagOf n] pvk
    "Error generating payment address: " st).state).log = _
  rw [ht]
  exact runTool_state_log _ _ _ _

/-- C10 witness: the misspelled network name "mainnnet" is mapped to the
mainnet tag. -/
theorem unknown_network_maps_to_mainnet_tag_witness :
    networkTagOf "mainnnet" = "1" :=
  (unknown_network_maps_to_mainnet_tag "mainnnet" (by decide)).1

set_option maxRecDepth 4096 in
/-- C4 counterexample: the claim "the credential-hash derivation returns
exactly 28 bytes (56 hex characters) on every branch" is false.  The input
`addr_vkh1pqypqnfc5r6` is a valid checksummed `addr_vkh` string whose decoded
program is the two bytes `[1, 2]`; `generate_proper_credential_hash` returns
its 4-character hex `"0102"`, not 56 characters. -/
theorem credential_hash_len_counterexample :
    (generate_proper_credential_hash "addr_vkh1pqypqnfc5r6").length = 4 ∧
    (generate_proper_credential_hash "addr_vkh1pqypqnfc5r6").length ≠ 56 := by
  constructor <;> decide

/-- C4 amended: `generate_proper_credential_hash` returns 56 characters for
every input, EXCEPT when the input (itself not of length 56) decodes as a
checksummed `addr_vkh` string whose payload is shorter than 28 bytes — then
the result is the payload's hex, of length `2 * |payload| < 56`. -/
theorem credential_hash_length_amended (k : String) :
    (generate_proper_credential_hash k).length = 56 ∨
    (∃ v prog, segwit_decode "addr_vkh" k = some (v, prog) ∧ prog.length < 28 ∧
      k.length ≠ 56 ∧ (generate_proper_credential_hash k).length = 2 * prog.length) := by
  unfold generate_proper_credential_hash
  by_cases h56 : k.length = 56
  · rw [if_pos h56]
    exact Or.inl h56
  · rw [if_neg h56]
    cases hdec : segwit_decode "addr_vkh" k with
    | none =>
      left
      rw [hexEncode_length, List.length_take, sha256_length]
      decide
    | some r =>
      obtain ⟨v, prog⟩ := r
      by_cases hp : prog.length < 28
      · right
        refine ⟨v, prog, rfl, hp, h56, ?_⟩
        rw [hexEncode_length, List.length_take]
        omega
      · left
        rw [hexEncode_length, List.length_take]
        omega

set_option maxRecDepth 8192 in
/-- C5: the claimed five-step first-match-wins fallback chain (formalised
from the spec's words as `spec_deriveCredentialHash`) is the code's own
documented intent, but the source deviates from it: because the library's
`bech32.decode` returns the tuple `(None, None)` on failure, the first loop
iteration either returns or raises, so the stake_vkh/addr_vk/stake_vk
decodes and the CBOR and raw-hex branches are unreachable.  On the valid
`stake_vk` input below the claimed policy yields the 4-character payload hex
`"0102"` while the code produces the 56-character SHA-256 fallback. -/
theorem credential_hash_fallback_order_bug :
    spec_deriveCredentialHash "stake_vk1pqypq3ja9q3" = "0102" ∧
    (generate_proper_credential_hash "stake_vk1pqypq3ja9q3").length = 56 ∧
    generate_proper_credential_hash "stake_vk1pqypq3ja9q3" ≠
      spec_deriveCredentialHash "stake_vk1pqypq3ja9q3" := by
  have h1 : spec_deriveCredentialHash "stake_vk1pqypq3ja9q3" = "0102" := by decide
  have hdec : segwit_decode "addr_vkh" "stake_vk1pqypq3ja9q3" = none := by decide
  have hlen : ¬ ("stake_vk1pqypq3ja9q3" : String).length = 56 := by decide
  have h2 : (generate_proper_credential_hash "stake_vk1pqypq3ja9q3").length = 56 := by
    unfold generate_proper_credential_hash
    rw [if_neg hlen, hdec]
    rw [hexEncode_length, List.length_take, sha256_length]
    decide
  refine ⟨h1, h2, ?_⟩
  intro he
  rw [he, h1] at h2
  exact absurd h2 (by decide)

set_option maxHeartbeats 1000000 in
/-- C9: the shared-mnemonic policy — `get_or_create_shared_mnemonic` creates
and persists the fresh phrase when the ticker has none, and returns the
persisted phrase (stripped, as the source re-reads it with `.strip()`)
unchanged otherwise; `generate_wallet` therefore leaves the store at the
first-created phrase on every subsequent invocation for any purpose and puts
exactly that phrase into the wallet bundle; the requested strength 256
corresponds to 24 BIP-39 words. -/
theorem shared_mnemonic_policy :
    (∀ st fresh, st.sharedMnemonic = none →
      get_or_create_shared_mnemonic fresh st =
        .ok fresh { st with sharedMnemonic := some fresh }) ∧
    (∀ st fresh m, st.sharedMnemonic = some m →
      get_or_create_shared_mnemonic fresh st = .ok (pyStrip m) st) ∧
    (∀ st t p n fresh, st.sharedMnemonic = none →
      match generate_wallet t p n fresh st with
      | .ok wd st' => st'.sharedMnemonic = some fresh ∧
          wd.lookup "mnemonic" = some fresh
      | .err _ st' => st'.sharedMnemonic = some fresh) ∧
    (∀ st t p n fresh m, st.sharedMnemonic = some m →
      match generate_wallet t p n fresh st with
      | .ok wd st' => st'.sharedMnemonic = some m ∧
          wd.lookup "mnemonic" = some (pyStrip m)
      | .err _ st' => st'.sharedMnemonic = some m) ∧
    bip39WordCount mnemonic_strength = 24 := by
  refine ⟨?_, ?_, ?_, ?_, by decide⟩
  · intro st fresh h
    unfold get_or_create_shared_mnemonic
    rw [h]
  · intro st fresh m h
    unfold get_or_create_shared_mnemonic
    rw [h]
  · intro st t p n fresh h
    obtain ⟨rs, sh, lg, sv⟩ := st
    simp only at h
    subst h
    simp only [generate_wallet, get_or_create_shared_mnemonic, mnemonic_to_root_key,
      derive_payment_key, derive_staking_key, generate_payment_address,
      generate_staking_address, generate_address_candidate, save_wallet_files,
      dictGet, writeF, runTool, M.run_bind, M.run_pure, M.throw]
    rcases rs with _ | ⟨r1, rs⟩ <;> try simp
    cases r1 <;> try simp
    rcases rs with _ | ⟨r2, rs⟩ <;> try simp
    cases r2 <;> try simp
    rcases rs with _ | ⟨r3, rs⟩ <;> try simp
    cases r3 <;> try simp
    rcases rs with _ | ⟨r4, rs⟩ <;> try simp
    cases r4 <;> try simp
    rcases rs with _ | ⟨r5, rs⟩ <;> try simp
    cases r5 <;> try simp
    rcases rs with _ | ⟨r6, rs⟩ <;> try simp
    cases r6 <;> try simp
    rcases rs with _ | ⟨r7, rs⟩ <;> try simp
    cases r7 <;> try simp
    rcases rs with _ | ⟨r8, rs⟩ <;> try simp
    cases r8 <;> try simp
    rcases rs with _ | ⟨r9, rs⟩ <;> try simp
    cases r9 <;> try simp
    rcases rs with _ | ⟨r10, rs⟩ <;> try simp
    cases r10 <;> try simp
    rcases rs with _ | ⟨r11, rs⟩ <;> try simp
    cases r11 <;> try simp
    rcases rs with _ | ⟨r12, rs⟩ <;> try simp
    cases r12 <;> try simp
    rcases rs with _ | ⟨r13, rs⟩ <;> try simp
    cases r13 <;> try simp
    split_ifs <;> simp [M.throw, M.run_bind, M.run_pure, save_wallet_files,
      dictGet, writeF, List.lookup]
  · intro st t p n fresh m h
    obtain ⟨rs, sh, lg, sv⟩ := st
    simp only at h
    subst h
    simp only [generate_wallet, get_or_create_shared_mnemonic, mnemonic_to_root_key,
      derive_payment_key, derive_staking_key, generate_payment_address,
      generate_staking_address, generate_address_candidate, save_wallet_files,
      dictGet, writeF, runTool, M.run_bind, M.run_pure, M.throw]
    rcases rs with _ | ⟨r1, rs⟩ <;> try simp
    cases r1 <;> try simp
    rcases rs with _ | ⟨r2, rs⟩ <;> try simp
    cases r2 <;> try simp
    rcases rs with _ | ⟨r3, rs⟩ <;> try simp
    cases r3 <;> try simp
    rcases rs with _ | ⟨r4, rs⟩ <;> try simp
    cases r4 <;> try simp
    rcases rs with _ | ⟨r5, rs⟩ <;> try simp
    cases r5 <;> try simp
    rcases rs with _ | ⟨r6, rs⟩ <;> try simp
    cases r6 <;> try simp
    rcases rs with _ | ⟨r7, rs⟩ <;> try simp
    cases r7 <;> try simp
    rcases rs with _ | ⟨r8, rs⟩ <;> try simp
    cases r8 <;> try simp
    rcases rs with _ | ⟨r9, rs⟩ <;> try simp
    cases r9 <;> try simp
    rcases rs with _ | ⟨r10, rs⟩ <;> try simp
    cases r10 <;> try simp
    rcases rs with _ | ⟨r11, rs⟩ <;> try simp
    cases r11 <;> try simp
    rcases rs with _ | ⟨r12, rs⟩ <;> try simp
    cases r12 <;> try simp
    rcases rs with _ | ⟨r13, rs⟩ <;> try simp
    cases r13 <;> try simp
    split_ifs <;> simp [M.throw, M.run_bind, M.run_pure, save_wallet_files,
      dictGet, writeF, List.lookup]

/-- C9 witness: a first invocation for a ticker with no stored phrase
persists the fresh phrase; a second invocation with a different fresh phrase
returns the stored one unchanged. -/
theorem shared_mnemonic_policy_witness :
    get_or_create_shared_mnemonic "wa wb wc" ⟨[], none, [], []⟩ =
      .ok "wa wb wc" ⟨[], some "wa wb wc", [], []⟩ ∧
    get_or_create_shared_mnemonic "other phrase" ⟨[], some "wa wb wc", [], []⟩ =
      .ok (pyStrip "wa wb wc") ⟨[], some "wa wb wc", [], []⟩ := by
  constructor
  · exact shared_mnemonic_policy.1 ⟨[], none, [], []⟩ "wa wb wc" rfl
  · exact shared_mnemonic_policy.2.1 ⟨[], some "wa wb wc", [], []⟩ "other phrase" "wa wb wc" rfl

/-- The seven files `save_wallet_files` writes for one purpose, in source
order, with the contents drawn from the wallet dict. -/
def walletFilesOf (t p : String) (wd : List (String × String)) :
    List (String × String × String) :=
  [(p, t ++ "-" ++ p ++ ".base_addr", (wd.lookup "base_addr").getD ""),
   (p, t ++ "-" ++ p ++ ".base_addr.candidate", (wd.lookup "base_addr_candidate").getD ""),
   (p, t ++ "-" ++ p ++ ".reward_addr", (wd.lookup "reward_addr").getD ""),
   (p, t ++ "-" ++ p ++ ".reward_addr.candidate", (wd.lookup "reward_addr_candidate").getD ""),
   (p, t ++ "-" ++ p ++ ".staking_skey", (wd.lookup "staking_skey").getD ""),
   (p, t ++ "-" ++ p ++ ".staking_vkey", (wd.lookup "staking_vkey").getD ""),
   (p, t ++ "-" ++ p ++ ".mnemonic.txt", (wd.lookup "mnemonic").getD "")]

set_option maxHeartbeats 2000000 in
/-- C1: in the generate flow the base and reward addresses are recomputed as
candidates from the same verification keys and compared byte-for-byte before
anything is persisted: on success the stored candidate entries equal the
originals and exactly the seven wallet files are written; on any error —
including a candidate mismatch, which aborts with the base-address-mismatch
`ClickException` — no wallet file is persisted.  The second conjunct
exhibits the mismatch abort for every trace in which the two delegation
outputs differ. -/
theorem address_verification_gates_persistence :
    (∀ st t p n fresh,
      match generate_wallet t p n fresh st with
      | .ok wd st' =>
          wd.lookup "base_addr_candidate" = wd.lookup "base_addr" ∧
          wd.lookup "reward_addr_candidate" = wd.lookup "reward_addr" ∧
          st'.saved = st.saved ++ walletFilesOf t p wd
      | .err _ st' => st'.saved = st.saved) ∧
    (∀ t p n fresh x1 x2 x3 x4 x5 x6 x7 x8 x9 x10 x11 x12 x13
       (sh : Option String) (lg : List (List String × String))
       (sv : List (String × String × String)),
      pyStrip x8 ≠ pyStrip x12 →
      (generate_wallet t p n fresh
        ⟨[.out x1, .out x2, .out x3, .out x4, .out x5, .out x6, .out x7, .out x8,
          .out x9, .out x10, .out x11, .out x12, .out x13], sh, lg, sv⟩).errMsg? =
        some "Address verification failed: base address mismatch" ∧
      ((generate_wallet t p n fresh
        ⟨[.out x1, .out x2, .out x3, .out x4, .out x5, .out x6, .out x7, .out x8,
          .out x9, .out x10, .out x11, .out x12, .out x13], sh, lg, sv⟩).state).saved =
        sv) := by
  constructor
  · intro st t p n fresh
    obtain ⟨rs, sh, lg, sv⟩ := st
    simp only [generate_wallet, get_or_create_shared_mnemonic, mnemonic_to_root_key,
      derive_payment_key, derive_staking_key, generate_payment_address,
      generate_staking_address, generate_address_candidate, save_wallet_files,
      dictGet, writeF, runTool, M.run_bind, M.run_pure, M.throw]
    rcases sh with _ | m <;>
    · rcases rs with _ | ⟨r1, rs⟩ <;> try simp
      cases r1 <;> try simp
      rcases rs with _ | ⟨r2, rs⟩ <;> try simp
      cases r2 <;> try simp
      rcases rs with _ | ⟨r3, rs⟩ <;> try simp
      cases r3 <;> try simp
      rcases rs with _ | ⟨r4, rs⟩ <;> try simp
      cases r4 <;> try simp
      rcases rs with _ | ⟨r5, rs⟩ <;> try simp
      cases r5 <;> try simp
      rcases rs with _ | ⟨r6, rs⟩ <;> try simp
      cases r6 <;> try simp
      rcases rs with _ | ⟨r7, rs⟩ <;> try simp
      cases r7 <;> try simp
      rcases rs with _ | ⟨r8, rs⟩ <;> try simp
      cases r8 <;> try simp
      rcases rs with _ | ⟨r9, rs⟩ <;> try simp
      cases r9 <;> try simp
      rcases rs with _ | ⟨r10, rs⟩ <;> try simp
      cases r10 <;> try simp
      rcases rs with _ | ⟨r11, rs⟩ <;> try simp
      cases r11 <;> try simp
      rcases rs with _ | ⟨r12, rs⟩ <;> try simp
      cases r12 <;> try simp
      rcases rs with _ | ⟨r13, rs⟩ <;> try simp
      cases r13 <;> try simp
      split_ifs with hv1 hv2 hv3 hv4
      · simp [M.throw]
      · simp [M.throw]
      · simp [M.throw]
      · simp [M.throw]
      · simp only [verify_address_candidates] at hv1 hv2
        simp only [Bool.not_eq_false, beq_iff_eq] at hv1 hv2
        simp [M.run_bind, M.run_pure, save_wallet_files, dictGet, writeF,
          List.lookup, walletFilesOf, hv1, hv2]
  · intro t p n fresh x1 x2 x3 x4 x5 x6 x7 x8 x9 x10 x11 x12 x13 sh lg sv hne
    have hb : (pyStrip x8 == pyStrip x12) = false := beq_eq_false_iff_ne.mpr hne
    constructor <;>
      cases sh <;>
        simp [generate_wallet, get_or_create_shared_mnemonic, mnemonic_to_root_key,
          derive_payment_key, derive_staking_key, generate_payment_address,
          generate_staking_address, generate_address_candidate,
          verify_address_candidates, runTool, M.run_bind, M.run_pure, M.throw, hb, hne]

/-- C1 witness: on a concrete trace whose two delegation outputs differ, the
generate flow aborts with the verification-mismatch error and persists no
wallet file. -/
theorem address_verification_gates_persistence_witness :
    (generate_wallet "TICK" "spo-main" "mainnet" "w1 w2"
      ⟨[.out "r", .out "k1", .out "k2", .out "k3", .out "k4", .out "a1", .out "a2",
        .out "BASE-A", .out "rw", .out "a3", .out "a4", .out "BASE-B", .out "rw2"],
        none, [], []⟩).errMsg? =
      some "Address verification failed: base address mismatch" ∧
    ((generate_wallet "TICK" "spo-main" "mainnet" "w1 w2"
      ⟨[.out "r", .out "k1", .out "k2", .out "k3", .out "k4", .out "a1", .out "a2",
        .out "BASE-A", .out "rw", .out "a3", .out "a4", .out "BASE-B", .out "rw2"],
        none, [], []⟩).state).saved = [] :=
  address_verification_gates_persistence.2 "TICK" "spo-main" "mainnet" "w1 w2"
    "r" "k1" "k2" "k3" "k4" "a1" "a2" "BASE-A" "rw" "a3" "a4" "BASE-B" "rw2"
    none [] [] (by decide)

/-- A 56-character credential value as `cardano-cli ... key-hash` prints. -/
def cred56 : String := "0123456789abcdef0123456789abcdef0123456789abcdef01234567"

/-- A reply trace in which all seventeen `cardano-cli` invocations of the
stake-pool bundle flow succeed except the delegation-certificate one (whose
failure the source absorbs into a placeholder). -/
def stakePoolReplies : List OracleReply :=
  [.keypair "5820a1" "5820a2", .keypair "5820b1" "5820b2",
   .out cred56, .out cred56, .out "addr1xbase", .out "addr1xpay", .out "stake1xrew",
   .out "certjson",
   .keypair "5820c1" "5820c2", .keypair "5820d1" "5820d2", .keypair "5820e1" "5820e2",
   .keypair "5820f1" "5820f2", .keypair "582011" "582012", .keypair "582021" "582022",
   .out cred56, .out cred56, .fail "no pool id"]

/-- The same trace with a different payment key-gen outcome. -/
def stakePoolRepliesB : List OracleReply :=
  .keypair "5820ff" "5820fe" :: stakePoolReplies.tail

set_option maxRecDepth 16384 in
set_option maxHeartbeats 2000000 in
/-- C2: the full stake-pool bundle flow does NOT derive its eight key pairs
from the shared recovery phrase.  On a trace where every tool call succeeds:
the flow never reads or creates the shared mnemonic (`sharedMnemonic` stays
`none`), never issues a `from-recovery-phrase` or `child` derivation
command, takes each key pair verbatim from the fresh `key-gen` replies (so a
second run with different tool randomness yields different keys), and then
crashes with `KeyError: mnemonic` in `save_complete_wallet_files` after
writing 25 files, because `generate_keys_with_cardano_cli` never produced a
`"mnemonic"` entry. -/
theorem stake_pool_bundle_not_derived_from_mnemonic :
    (generate_stake_pool_files "TEST" "pledge" "mainnet"
      ⟨stakePoolReplies, none, [], []⟩).errMsg? = some "KeyError: mnemonic" ∧
    ((generate_stake_pool_files "TEST" "pledge" "mainnet"
      ⟨stakePoolReplies, none, [], []⟩).state).sharedMnemonic = none ∧
    (((generate_stake_pool_files "TEST" "pledge" "mainnet"
      ⟨stakePoolReplies, none, [], []⟩).state).log.all fun e =>
        !(e.1.contains "from-recovery-phrase") && !(e.1.contains "child")) = true ∧
    ((generate_stake_pool_files "TEST" "pledge" "mainnet"
      ⟨stakePoolReplies, none, [], []⟩).state).saved.length = 25 ∧
    ((generate_keys_with_cardano_cli "pledge" "mainnet"
      ⟨stakePoolReplies, none, [], []⟩).val?.map fun d => d.lookup "payment_vkey") =
      some (some "5820a1") ∧
    ((generate_keys_with_cardano_cli "pledge" "mainnet"
      ⟨stakePoolRepliesB, none, [], []⟩).val?.map fun d => d.lookup "payment_vkey") =
      some (some "5820ff") := by
  refine ⟨by decide, by decide, by decide, by decide, by decide, by decide⟩

/-- The two key-file envelopes supplied to the import flow below. -/
def importedPaymentEnv : KeyFileEnv :=
  ⟨"PaymentVerificationKeyShelley_ed25519", "Payment Verification Key", "5820aa"⟩

def importedStakeEnv : KeyFileEnv :=
  ⟨"StakeVerificationKeyShelley_ed25519", "Stake Verification Key", "5820bb"⟩

/-- A reply trace in which all four address-construction calls of the import
flow succeed and both produced addresses validate. -/
def importReplies : List OracleReply :=
  [.out "payA", .out "stkA", .out "addr1mykd6t", .out "stake16dwawz"]

set_option maxRecDepth 16384 in
set_option maxHeartbeats 2000000 in
/-- C3: the import flow does NOT go through the candidate-recomputation
verification of the generate flow.  On a fully successful trace it issues
exactly the four address commands (payment, stake, delegation, stake — no
second candidate triple and no candidate reward address; the generate flow
issues eight), never calls `verify_address_candidates`, and then crashes
with `KeyError: base_addr_candidate` inside `save_wallet_files` after
writing only the base-address file, because its wallet dict has no candidate
entries. -/
theorem import_flow_skips_candidate_verification :
    (generate_wallet_with_import "TEST" "p" "mainnet" (some importedPaymentEnv) none
      (some importedStakeEnv) none ⟨importReplies, none, [], []⟩).errMsg? =
      some "KeyError: base_addr_candidate" ∧
    ((generate_wallet_with_import "TEST" "p" "mainnet" (some importedPaymentEnv) none
      (some importedStakeEnv) none ⟨importReplies, none, [], []⟩).state).saved =
      [("p", "TEST-p.base_addr", "addr1mykd6t")] ∧
    ((generate_wallet_with_import "TEST" "p" "mainnet" (some importedPaymentEnv) none
      (some importedStakeEnv) none ⟨importReplies, none, [], []⟩).state).log =
      [(["address", "payment", "--network-tag", "1"], "addr_vk1aa"),
       (["address", "stake", "--network-tag", "1"], "stake_vk1bb"),
       (["address", "delegation", "stake_vk1bb"], "payA"),
       (["address", "stake", "--network-tag", "1"], "stake_vk1bb")] ∧
    (generate_wallet_with_import "TEST" "p" "mainnet" (some importedPaymentEnv) none
      (some importedStakeEnv) none ⟨importReplies, none, [], []⟩).val? = none := by
  refine ⟨by decide, by decide, by decide, by decide⟩

end CSPO
